import Mathlib

/-!
Shallow embedding of the event-management backend's authentication token
lifecycle and ownership-gated event operations, translated from:
  - `AuthService` (register/login/refreshTokens/logout/verifyPassword/generateTokens),
  - `EventsService` (update/delete) and `EventsController.delete`,
  - `AuthController.logout`,
together with the Prisma schema (`admins`, `refresh_tokens`, `events` tables).

JWTs are modelled as structured values determined by payload, signing secret,
issued-at instant and expiry: the underlying `jsonwebtoken` HS256 signing is
deterministic, so two tokens are the same string exactly when these fields
coincide.  bcrypt comparison is an external library call and is passed in as a
function parameter `bcmp plaintext storedHash : Bool`.  Database operations are
state-passing functions on a `Db` record; a thrown Nest exception is an
`Except.error` paired with the (unchanged) database, which is faithful because
every throwing path in the modelled code occurs before any mutation.
-/

/-- JWT payload as built by `generateTokens`: `{ sub: adminId, email }`. -/
structure JwtPayload where
  sub : String
  email : String
deriving DecidableEq, Repr

/-- A signed JWT, identified by the data that determines the token string
under deterministic HS256 signing: payload, secret, issued-at, expiry. -/
structure Jwt where
  payload : JwtPayload
  secret : String
  iat : Int
  exp : Int
deriving DecidableEq, Repr

/-- `jwtService.sign(payload, { secret, expiresIn })` at instant `iat`. -/
def Jwt.sign (payload : JwtPayload) (secret : String) (iat expiresIn : Int) : Jwt :=
  { payload := payload, secret := secret, iat := iat, exp := iat + expiresIn }

/-- `jwtService.verify(token, { secret })` at instant `now`: checks the
signature (secret match) and that the token is not expired; returns the
decoded payload on success, throws (here: `none`) otherwise. -/
def Jwt.verify (t : Jwt) (secret : String) (now : Int) : Option JwtPayload :=
  if t.secret = secret ∧ now < t.exp then some t.payload else none

/-- Row of the `admins` table (fields used by the modelled code);
`password` holds the bcrypt hash. -/
structure Admin where
  id : String
  email : String
  password : String
deriving DecidableEq, Repr

/-- Row of the `refresh_tokens` table. -/
structure RefreshTokenRecord where
  id : Nat
  token : Jwt
  adminId : String
  expiresAt : Int
deriving DecidableEq, Repr

/-- `EventStatus` enum from the Prisma schema. -/
inductive EventStatus where
  | ongoing
  | completed
deriving DecidableEq, Repr

/-- Row of the `events` table (fields used by the modelled code). -/
structure Event where
  id : String
  name : String
  startDate : Int
  endDate : Int
  location : String
  posterUrl : Option String
  status : EventStatus
  createdById : String
deriving DecidableEq, Repr

/-- The database: the three tables plus a fresh-id supply for created
`refresh_tokens` rows (Prisma generates cuids; only freshness matters). -/
structure Db where
  admins : List Admin
  refreshTokens : List RefreshTokenRecord
  events : List Event
  nextId : Nat
deriving DecidableEq, Repr

/-- JWT configuration read from `ConfigService`:
`JWT_SECRET`, `JWT_REFRESH_SECRET`, `JWT_EXPIRATION`, `JWT_REFRESH_EXPIRATION`. -/
structure Config where
  jwtSecret : String
  jwtRefreshSecret : String
  jwtExpiration : Int
  jwtRefreshExpiration : Int
deriving DecidableEq, Repr

/-- The hardcoded ledger lifetime in `generateTokens`:
`expiresAt.setDate(expiresAt.getDate() + 7)`, i.e. seven days (in seconds). -/
def sevenDays : Int := 7 * 24 * 60 * 60

/-- The error taxonomy of the thrown Nest exceptions. -/
inductive AuthError where
  | unauthorized (msg : String)
  | conflict (msg : String)
  | notFound (msg : String)
  | forbidden (msg : String)
deriving DecidableEq, Repr

/-- The `admins` unique primary key: `findUnique({ where: { id } })`. -/
def Db.findAdminById (db : Db) (adminId : String) : Option Admin :=
  db.admins.find? (fun a => a.id = adminId)

/-- The `admins` unique email index: `findUnique({ where: { email } })`. -/
def Db.findAdminByEmail (db : Db) (email : String) : Option Admin :=
  db.admins.find? (fun a => a.email = email)

/-- The `refresh_tokens` unique token index: `findUnique({ where: { token } })`. -/
def Db.findRefreshToken (db : Db) (token : Jwt) : Option RefreshTokenRecord :=
  db.refreshTokens.find? (fun r => r.token = token)

/-- The `events` unique primary key: `findUnique({ where: { id } })`. -/
def Db.findEvent (db : Db) (eventId : String) : Option Event :=
  db.events.find? (fun e => e.id = eventId)

/-- The database-level invariant enforced by the unique index
`refresh_tokens_token_key`: distinct ledger rows carry distinct token strings. -/
def Db.uniqueTokens (db : Db) : Prop :=
  db.refreshTokens.Pairwise (fun r s => r.token ≠ s.token)

/-- The database-level invariant enforced by the primary key `events_pkey`:
distinct event rows carry distinct ids. -/
def Db.uniqueEventIds (db : Db) : Prop :=
  db.events.Pairwise (fun e f => e.id ≠ f.id)

namespace AuthService

/-- `AuthService.generateTokens(adminId, email)` at instant `now`: signs an
access token under `JWT_SECRET` and a refresh token under
`JWT_REFRESH_SECRET`, then inserts a ledger row for the refresh token with
`expiresAt = now + 7 days`.  Returns `(accessToken, refreshToken)` and the
updated database. -/
def generateTokens (cfg : Config) (adminId email : String) (now : Int) (db : Db) :
    (Jwt × Jwt) × Db :=
  let payload : JwtPayload := { sub := adminId, email := email }
  let accessToken := Jwt.sign payload cfg.jwtSecret now cfg.jwtExpiration
  let refreshToken := Jwt.sign payload cfg.jwtRefreshSecret now cfg.jwtRefreshExpiration
  let record : RefreshTokenRecord :=
    { id := db.nextId, token := refreshToken, adminId := adminId,
      expiresAt := now + sevenDays }
  ((accessToken, refreshToken),
   { db with refreshTokens := db.refreshTokens ++ [record], nextId := db.nextId + 1 })

/-- `AuthService.login(loginDto)` at instant `now`.  Looks up the admin by
email; absence or a failed bcrypt comparison both throw
`UnauthorizedException('Invalid credentials')`; on success issues tokens via
`generateTokens` and returns them with `{ id, email }` of the admin. -/
def login (cfg : Config) (bcmp : String → String → Bool) (email password : String)
    (now : Int) (db : Db) :
    Except AuthError ((Jwt × Jwt) × String × String) × Db :=
  match db.findAdminByEmail email with
  | none => (.error (.unauthorized "Invalid credentials"), db)
  | some admin =>
    let isPasswordValid := bcmp password admin.password
    if isPasswordValid then
      let (tokens, db') := generateTokens cfg admin.id admin.email now db
      (.ok (tokens, admin.id, admin.email), db')
    else
      (.error (.unauthorized "Invalid credentials"), db)

/-- `AuthService.refreshTokens(refreshToken)` at instant `now`.  Verifies the
token under `JWT_REFRESH_SECRET`, looks it up in the ledger, rejects if the
row is absent or `expiresAt < now`, deletes the matched row, then issues a
fresh pair via `generateTokens`.  Every thrown error is caught and rethrown
as `UnauthorizedException('Invalid refresh token')`. -/
def refreshTokens (cfg : Config) (refreshToken : Jwt) (now : Int) (db : Db) :
    Except AuthError (Jwt × Jwt) × Db :=
  match refreshToken.verify cfg.jwtRefreshSecret now with
  | none => (.error (.unauthorized "Invalid refresh token"), db)
  | some payload =>
    match db.findRefreshToken refreshToken with
    | none => (.error (.unauthorized "Invalid refresh token"), db)
    | some storedToken =>
      if storedToken.expiresAt < now then
        (.error (.unauthorized "Invalid refresh token"), db)
      else
        let db1 := { db with
          refreshTokens := db.refreshTokens.filter (fun r => r.id ≠ storedToken.id) }
        let (tokens, db2) := generateTokens cfg payload.sub payload.email now db1
        (.ok tokens, db2)

/-- `AuthService.logout(refreshToken)`: deletes the ledger row matching the
token; a missing row makes the Prisma delete throw, and the catch block
swallows the error, so the call always succeeds. -/
def logout (refreshToken : Jwt) (db : Db) : Except AuthError Unit × Db :=
  (.ok (),
   { db with refreshTokens := db.refreshTokens.filter (fun r => r.token ≠ refreshToken) })

/-- `AuthService.verifyPassword(adminId, password)`: looks up the admin by
id; absence throws `UnauthorizedException('Admin not found')`; a failed
bcrypt comparison throws `UnauthorizedException('Invalid password')`;
otherwise returns `true`. -/
def verifyPassword (bcmp : String → String → Bool) (adminId password : String) (db : Db) :
    Except AuthError Bool × Db :=
  match db.findAdminById adminId with
  | none => (.error (.unauthorized "Admin not found"), db)
  | some admin =>
    let isPasswordValid := bcmp password admin.password
    if isPasswordValid then (.ok true, db)
    else (.error (.unauthorized "Invalid password"), db)

end AuthService

namespace AuthController

/-- `AuthController.logout(body)`: calls `authService.logout` and returns
`{ message: 'Logged out successfully' }` unconditionally. -/
def logout (refreshToken : Jwt) (db : Db) : Except AuthError String × Db :=
  let (_, db') := AuthService.logout refreshToken db
  (.ok "Logged out successfully", db')

end AuthController

/-- `UpdateEventDto`: every field optional; exactly these six fields exist
(`name`, `startDate`, `endDate`, `location`, `posterUrl`, `status`). -/
structure UpdateEventDto where
  name : Option String
  startDate : Option Int
  endDate : Option Int
  location : Option String
  posterUrl : Option String
  status : Option EventStatus
deriving DecidableEq, Repr

/-- The Prisma `event.update({ data: { ...updateEventDto } })` semantics:
a field present in the dto overwrites the stored column, an absent
(`undefined`) field leaves it untouched.  `id` and `createdById` are not
part of the dto and are never written. -/
def applyUpdate (e : Event) (dto : UpdateEventDto) : Event :=
  { e with
    name := dto.name.getD e.name,
    startDate := dto.startDate.getD e.startDate,
    endDate := dto.endDate.getD e.endDate,
    location := dto.location.getD e.location,
    posterUrl := (dto.posterUrl.map some).getD e.posterUrl,
    status := dto.status.getD e.status }

namespace EventsService

/-- `EventsService.update(id, updateEventDto, adminId)`: find the event by
id (else `NotFoundException('Event not found')`), check
`event.createdById !== adminId` (else
`ForbiddenException('You can only update your own events')`), then update
the row.  Returns the updated event. -/
def update (eventId : String) (dto : UpdateEventDto) (adminId : String) (db : Db) :
    Except AuthError Event × Db :=
  match db.findEvent eventId with
  | none => (.error (.notFound "Event not found"), db)
  | some event =>
    if event.createdById ≠ adminId then
      (.error (.forbidden "You can only update your own events"), db)
    else
      let updated := applyUpdate event dto
      (.ok updated,
       { db with events := db.events.map (fun e => if e.id = eventId then updated else e) })

/-- `EventsService.delete(id, adminId)`: find the event by id (else
`NotFoundException('Event not found')`), check ownership (else
`ForbiddenException('You can only delete your own events')`), delete the
row, return `{ message: 'Event deleted successfully' }`. -/
def delete (eventId adminId : String) (db : Db) : Except AuthError String × Db :=
  match db.findEvent eventId with
  | none => (.error (.notFound "Event not found"), db)
  | some event =>
    if event.createdById ≠ adminId then
      (.error (.forbidden "You can only delete your own events"), db)
    else
      (.ok "Event deleted successfully",
       { db with events := db.events.filter (fun e => e.id ≠ eventId) })

end EventsService

namespace EventsController

/-- `EventsController.delete(id, body, user)`: first
`await this.authService.verifyPassword(user.id, body.password)` — a thrown
password error aborts the request — then `eventsService.delete(id, user.id)`. -/
def delete (bcmp : String → String → Bool) (eventId password userId : String) (db : Db) :
    Except AuthError String × Db :=
  match AuthService.verifyPassword bcmp userId password db with
  | (.error e, db') => (.error e, db')
  | (.ok _, db') => EventsService.delete eventId userId db'

end EventsController

/-! ### Concrete example data used by counterexamples and witnesses -/

/-- A concrete bcrypt-comparison oracle for concrete runs: the stored "hash"
is the plaintext itself (the comparison function is a parameter of the
model, so any concrete instance is admissible here). -/
def exBcmp : String → String → Bool := fun plaintext storedHash => plaintext = storedHash

/-- Example JWT payload for admin `admin1`. -/
def exPayload : JwtPayload := { sub := "admin1", email := "a@x.com" }

/-- Example configuration: distinct access and refresh secrets, 15-minute
access lifetime, 7-day refresh lifetime. -/
def exCfg : Config :=
  { jwtSecret := "acc", jwtRefreshSecret := "ref",
    jwtExpiration := 900, jwtRefreshExpiration := sevenDays }

/-- Example admin row; the stored hash is `"hash1"` under `exBcmp`. -/
def exAdmin : Admin := { id := "admin1", email := "a@x.com", password := "hash1" }

/-- A refresh token issued to `admin1` at instant 0. -/
def exTok : Jwt := Jwt.sign exPayload "ref" 0 sevenDays

/-- Ledger state right after that issuance. -/
def exDb : Db :=
  { admins := [exAdmin],
    refreshTokens := [{ id := 0, token := exTok, adminId := "admin1", expiresAt := sevenDays }],
    events := [], nextId := 1 }

/-- A refresh token issued at instant 5 with a long expiry. -/
def exTok1 : Jwt := { payload := exPayload, secret := "ref", iat := 5, exp := 700000 }

/-- Ledger holding `exTok1` with ledger expiry 700000. -/
def exDb1 : Db :=
  { admins := [exAdmin],
    refreshTokens := [{ id := 0, token := exTok1, adminId := "admin1", expiresAt := 700000 }],
    events := [], nextId := 1 }

/-- A verifying refresh token whose ledger row expires exactly at instant 50. -/
def exTok3 : Jwt := { payload := exPayload, secret := "ref", iat := 0, exp := 1000000 }

/-- Ledger where `exTok3`'s row has `expiresAt = 50`. -/
def exDb3 : Db :=
  { admins := [exAdmin],
    refreshTokens := [{ id := 0, token := exTok3, adminId := "admin1", expiresAt := 50 }],
    events := [], nextId := 1 }

/-- A database with one event owned by `admin1` and an empty ledger. -/
def exDbEvent : Db :=
  { admins := [exAdmin],
    refreshTokens := [],
    events := [{ id := "e1", name := "Launch", startDate := 10, endDate := 20,
                 location := "Hall A", posterUrl := none, status := .ongoing,
                 createdById := "admin1" }],
    nextId := 1 }

/-- A database with no rows at all. -/
def exDbEmpty : Db := { admins := [], refreshTokens := [], events := [], nextId := 0 }

/-! ### Helper lemmas shared between claims -/

/-- `verifyPassword` never writes: its second component is the input database. -/
theorem verifyPassword_db_eq (bcmp : String → String → Bool)
    (adminId password : String) (db : Db) :
    (AuthService.verifyPassword bcmp adminId password db).2 = db := by
  unfold AuthService.verifyPassword
  cases db.findAdminById adminId with
  | none => rfl
  | some a => by_cases h : bcmp password a.password <;> simp [h]

/-- A filter by a predicate that every element satisfies is the identity. -/
theorem filter_eq_self_of_forall {α : Type} (p : α → Bool) (l : List α)
    (h : ∀ a ∈ l, p a = true) : l.filter p = l := by
  induction l with
  | nil => rfl
  | cons x xs ih =>
    simp only [List.filter_cons, h x (List.mem_cons_self x xs), if_pos]
    exact congrArg (x :: ·) (ih fun a ha => h a (List.mem_cons_of_mem x ha))

/-! ### Claim theorems -/

/-- Claim C5: for every credential store, a login attempt with a non-existent
email and a login attempt with an existing email but wrong password both
signal the very same `Unauthorized('Invalid credentials')` error (identical
status and shape), and neither mutates the store. -/
theorem login_account_enumeration_resistant
    (cfg : Config) (bcmp : String → String → Bool) (db : Db)
    (email1 pw1 email2 pw2 : String) (now1 now2 : Int) (a : Admin)
    (h1 : db.findAdminByEmail email1 = none)
    (h2 : db.findAdminByEmail email2 = some a)
    (h3 : bcmp pw2 a.password = false) :
    (AuthService.login cfg bcmp email1 pw1 now1 db).1
        = .error (.unauthorized "Invalid credentials")
    ∧ (AuthService.login cfg bcmp email2 pw2 now2 db).1
        = .error (.unauthorized "Invalid credentials")
    ∧ (AuthService.login cfg bcmp email1 pw1 now1 db).2 = db
    ∧ (AuthService.login cfg bcmp email2 pw2 now2 db).2 = db := by
  unfold AuthService.login
  rw [h1, h2]
  simp [h3]

/-- Witness for C5 at a concrete store: no admin has email `ghost@x.com`,
and `admin1`'s stored hash does not match `wrongpw` under `exBcmp`. -/
theorem login_account_enumeration_resistant_witness :
    (AuthService.login exCfg exBcmp "ghost@x.com" "pw" 0 exDb).1
        = .error (.unauthorized "Invalid credentials")
    ∧ (AuthService.login exCfg exBcmp "a@x.com" "wrongpw" 0 exDb).1
        = .error (.unauthorized "Invalid credentials")
    ∧ (AuthService.login exCfg exBcmp "ghost@x.com" "pw" 0 exDb).2 = exDb
    ∧ (AuthService.login exCfg exBcmp "a@x.com" "wrongpw" 0 exDb).2 = exDb :=
  login_account_enumeration_resistant exCfg exBcmp exDb
    "ghost@x.com" "pw" "a@x.com" "wrongpw" 0 0 exAdmin
    (by decide) (by decide) (by decide)

/-- Claim C9: `verifyPassword(adminId, password)` returns `true` exactly when
the admin row exists and the bcrypt comparison succeeds; a missing admin
signals the user-facing `Unauthorized('Admin not found')`; every outcome is
either `ok true` or some `Unauthorized` error; the store is never mutated. -/
theorem verifyPassword_characterization
    (bcmp : String → String → Bool) (db : Db) (adminId password : String) :
    ((AuthService.verifyPassword bcmp adminId password db).1 = .ok true ↔
      ∃ a, db.findAdminById adminId = some a ∧ bcmp password a.password = true)
    ∧ (db.findAdminById adminId = none →
        (AuthService.verifyPassword bcmp adminId password db).1
          = .error (.unauthorized "Admin not found"))
    ∧ ((AuthService.verifyPassword bcmp adminId password db).1 = .ok true
       ∨ ∃ msg, (AuthService.verifyPassword bcmp adminId password db).1
          = .error (.unauthorized msg))
    ∧ (AuthService.verifyPassword bcmp adminId password db).2 = db := by
  refine ⟨?_, ?_, ?_, verifyPassword_db_eq bcmp adminId password db⟩ <;>
    unfold AuthService.verifyPassword <;>
    cases hfind : db.findAdminById adminId with
  | none => simp
  | some a => by_cases hb : bcmp password a.password <;> simp [hb]

/-- Witness for C9: with no admin rows at all, `verifyPassword` signals
`Unauthorized('Admin not found')`. -/
theorem verifyPassword_characterization_witness :
    (AuthService.verifyPassword exBcmp "admin1" "pw" exDbEmpty).1
      = .error (.unauthorized "Admin not found") :=
  (verifyPassword_characterization exBcmp exDbEmpty "admin1" "pw").2.1 (by decide)

/-- Claim C4: a delete request by an authenticated caller whose step-up
password fails the bcrypt check is rejected with
`Unauthorized('Invalid password')` and the database — in particular the
event table — is returned unchanged: no destructive action runs. -/
theorem delete_wrong_password_rejected
    (bcmp : String → String → Bool) (db : Db)
    (eventId password userId : String) (a : Admin)
    (hadmin : db.findAdminById userId = some a)
    (hbad : bcmp password a.password = false) :
    EventsController.delete bcmp eventId password userId db
      = (.error (.unauthorized "Invalid password"), db) := by
  unfold EventsController.delete AuthService.verifyPassword
  rw [hadmin]
  simp [hbad]

/-- Witness for C4: deleting `admin1`'s existing event `e1` with wrong
password `nope` is rejected and the event table is untouched. -/
theorem delete_wrong_password_rejected_witness :
    EventsController.delete exBcmp "e1" "nope" "admin1" exDbEvent
      = (.error (.unauthorized "Invalid password"), exDbEvent) :=
  delete_wrong_password_rejected exBcmp exDbEvent "e1" "nope" "admin1" exAdmin
    (by decide) (by decide)

/-- Claim C7: for every token, `AuthController.logout` returns the success
message and no error; it removes exactly the ledger rows matching the token
and inserts nothing; when no row matches, the database is unchanged; logout
is idempotent; admin and event tables are untouched. -/
theorem logout_idempotent_success (T : Jwt) (db : Db) :
    (AuthController.logout T db).1 = .ok "Logged out successfully"
    ∧ (∀ r ∈ (AuthController.logout T db).2.refreshTokens,
        r ∈ db.refreshTokens ∧ r.token ≠ T)
    ∧ ((∀ r ∈ db.refreshTokens, r.token ≠ T) → (AuthController.logout T db).2 = db)
    ∧ (AuthController.logout T (AuthController.logout T db).2).2
        = (AuthController.logout T db).2
    ∧ (AuthController.logout T db).2.admins = db.admins
    ∧ (AuthController.logout T db).2.events = db.events := by
  unfold AuthController.logout AuthService.logout
  refine ⟨rfl, ?_, ?_, ?_, rfl, rfl⟩
  · intro r hr
    have hm := List.mem_filter.mp hr
    exact ⟨hm.1, by simpa using hm.2⟩
  · intro h
    have hf : db.refreshTokens.filter (fun r => !decide (r.token = T))
        = db.refreshTokens :=
      filter_eq_self_of_forall _ _ (fun a ha => by simpa using h a ha)
    simp [hf]
  · have hf : (db.refreshTokens.filter (fun r => !decide (r.token = T))).filter
        (fun r => !decide (r.token = T))
        = db.refreshTokens.filter (fun r => !decide (r.token = T)) :=
      filter_eq_self_of_forall _ _ (fun a ha => (List.mem_filter.mp ha).2)
    simp [hf]

/-- Witness for C7: logging out a never-issued token from a ledger that does
not contain it leaves the database unchanged. -/
theorem logout_idempotent_success_witness :
    (AuthController.logout exTok exDbEvent).2 = exDbEvent :=
  (logout_idempotent_success exTok exDbEvent).2.2.1 (by decide)

/-- Claim C8: `generateTokens` signs the access token under `JWT_SECRET` and
the refresh token under `JWT_REFRESH_SECRET`; `refreshTokens` verifies only
under the refresh secret; when the two configured secrets differ, each token
fails verification under the other class's secret at every instant, and
presenting the access token to `refreshTokens` is rejected against every
database state. -/
theorem token_secret_separation
    (cfg : Config) (adminId email : String) (now t : Int) (db db2 : Db)
    (hsec : cfg.jwtSecret ≠ cfg.jwtRefreshSecret) :
    ((AuthService.generateTokens cfg adminId email now db).1.1).secret = cfg.jwtSecret
    ∧ ((AuthService.generateTokens cfg adminId email now db).1.2).secret
        = cfg.jwtRefreshSecret
    ∧ Jwt.verify (AuthService.generateTokens cfg adminId email now db).1.1
        cfg.jwtRefreshSecret t = none
    ∧ Jwt.verify (AuthService.generateTokens cfg adminId email now db).1.2
        cfg.jwtSecret t = none
    ∧ (AuthService.refreshTokens cfg
        (AuthService.generateTokens cfg adminId email now db).1.1 t db2).1
        = .error (.unauthorized "Invalid refresh token") := by
  have hsec' : cfg.jwtRefreshSecret ≠ cfg.jwtSecret := Ne.symm hsec
  refine ⟨rfl, rfl, ?_, ?_, ?_⟩
  · simp [AuthService.generateTokens, Jwt.sign, Jwt.verify, hsec]
  · simp [AuthService.generateTokens, Jwt.sign, Jwt.verify, hsec']
  · have hv : Jwt.verify (AuthService.generateTokens cfg adminId email now db).1.1
        cfg.jwtRefreshSecret t = none := by
      simp [AuthService.generateTokens, Jwt.sign, Jwt.verify, hsec]
    unfold AuthService.refreshTokens
    rw [hv]

/-- Witness for C8 at the concrete configuration with secrets `acc` and `ref`. -/
theorem token_secret_separation_witness :
    Jwt.verify (AuthService.generateTokens exCfg "admin1" "a@x.com" 0 exDbEmpty).1.1
      "ref" 3 = none
    ∧ (AuthService.refreshTokens exCfg
        (AuthService.generateTokens exCfg "admin1" "a@x.com" 0 exDbEmpty).1.1 3 exDb).1
        = .error (.unauthorized "Invalid refresh token") :=
  ⟨(token_secret_separation exCfg "admin1" "a@x.com" 0 3 exDbEmpty exDb
      (by decide)).2.2.1,
   (token_secret_separation exCfg "admin1" "a@x.com" 0 3 exDbEmpty exDb
      (by decide)).2.2.2.2⟩

/-- Claim C6: whenever `refreshTokens` succeeds, the ledger row inserted for
the newly issued refresh token carries `expiresAt = now + 7 days`, measured
from the instant of the refresh call and independent of the presented
token's own remaining expiry. -/
theorem refresh_new_expiry_measured_from_now
    (cfg : Config) (db : Db) (T : Jwt) (now : Int) (tokens : Jwt × Jwt) (db' : Db)
    (hok : AuthService.refreshTokens cfg T now db = (.ok tokens, db')) :
    db'.refreshTokens.getLast? = some
      { id := db.nextId, token := tokens.2, adminId := T.payload.sub,
        expiresAt := now + sevenDays } := by
  unfold AuthService.refreshTokens at hok
  split at hok
  · simp at hok
  next payload hv =>
    have hp : payload = T.payload := by
      unfold Jwt.verify at hv
      split at hv
      · injection hv with h; exact h.symm
      · cases hv
    split at hok
    · simp at hok
    next stored hf =>
      split at hok
      · simp at hok
      · unfold AuthService.generateTokens at hok
        simp only [Prod.mk.injEq, Except.ok.injEq] at hok
        obtain ⟨htok, hdb⟩ := hok
        subst hdb
        subst hp
        rw [← htok]
        simp

/-- Witness for C6: refreshing `exTok1` at instant 6 inserts a ledger row
expiring at `6 + sevenDays`. -/
theorem refresh_new_expiry_measured_from_now_witness :
    (AuthService.refreshTokens exCfg exTok1 6 exDb1).2.refreshTokens.getLast? = some
      { id := exDb1.nextId,
        token := (Jwt.sign exPayload "acc" 6 900, Jwt.sign exPayload "ref" 6 sevenDays).2,
        adminId := exTok1.payload.sub,
        expiresAt := 6 + sevenDays } :=
  refresh_new_expiry_measured_from_now exCfg exDb1 exTok1 6
    (Jwt.sign exPayload "acc" 6 900, Jwt.sign exPayload "ref" 6 sevenDays)
    (AuthService.refreshTokens exCfg exTok1 6 exDb1).2 rfl

/-- Projecting after a pointwise conditional replacement by a constant is the
identity on the projection, provided the projection agrees on every element
the condition selects. -/
theorem map_proj_if_const {α β : Type} (l : List α) (q : α → Prop) [DecidablePred q]
    (c : α) (f : α → β) (h : ∀ a ∈ l, q a → f c = f a) :
    (l.map (fun a => if q a then c else a)).map f = l.map f := by
  induction l with
  | nil => rfl
  | cons x xs ih =>
    simp only [List.map_cons, List.cons.injEq]
    constructor
    · by_cases hq : q x
      · rw [if_pos hq]; exact h x (List.mem_cons_self x xs) hq
      · rw [if_neg hq]
    · exact ih (fun a ha hq => h a (List.mem_cons_of_mem x ha) hq)

/-- Claim C10: a successful `update(id, dto, adminId)` preserves the event's
`id` and `createdById` (the dto can only carry the six mutable columns), and
pointwise across the whole table no event's `id` or `createdById` changes;
the other tables are untouched.  Consequently ownership never changes under
any sequence of updates. -/
theorem update_preserves_id_and_owner
    (db : Db) (eventId : String) (dto : UpdateEventDto) (adminId : String)
    (updated : Event) (db' : Db)
    (huniq : Db.uniqueEventIds db)
    (hok : EventsService.update eventId dto adminId db = (.ok updated, db')) :
    (∃ e, db.findEvent eventId = some e ∧ updated.id = e.id
        ∧ updated.createdById = e.createdById)
    ∧ db'.events.map (fun e => e.id) = db.events.map (fun e => e.id)
    ∧ db'.events.map (fun e => e.createdById) = db.events.map (fun e => e.createdById)
    ∧ db'.admins = db.admins ∧ db'.refreshTokens = db.refreshTokens := by
  unfold EventsService.update at hok
  split at hok
  · simp at hok
  next ev hf =>
    split at hok
    · simp at hok
    next hown =>
      simp only [Prod.mk.injEq, Except.ok.injEq] at hok
      obtain ⟨hupd, hdb⟩ := hok
      have hev_mem : ev ∈ db.events := List.mem_of_find?_eq_some hf
      have hev_id : ev.id = eventId := by
        have := List.find?_some hf
        simpa using this
      have heq_of_id : ∀ e ∈ db.events, e.id = eventId → e = ev := by
        intro e he hid
        by_contra hne
        have hsymm : Symmetric (fun a b : Event => a.id ≠ b.id) :=
          fun a b hab => fun hba => hab hba.symm
        have := huniq.forall hsymm he hev_mem hne
        exact this (hid.trans hev_id.symm)
      subst hdb
      refine ⟨⟨ev, hf, ?_, ?_⟩, ?_, ?_, rfl, rfl⟩
      · rw [← hupd]; rfl
      · rw [← hupd]; rfl
      · refine map_proj_if_const db.events (fun e => e.id = eventId)
          (applyUpdate ev dto) (fun e => e.id) ?_
        intro e he hid
        show ev.id = e.id
        rw [hev_id, hid]
      · refine map_proj_if_const db.events (fun e => e.id = eventId)
          (applyUpdate ev dto) (fun e => e.createdById) ?_
        intro e he hid
        show ev.createdById = e.createdById
        rw [heq_of_id e he hid]

/-- Witness for C10: updating event `e1`'s name leaves its id and owner
untouched. -/
theorem update_preserves_id_and_owner_witness :
    (∃ e, exDbEvent.findEvent "e1" = some e
        ∧ (applyUpdate { id := "e1", name := "Launch", startDate := 10, endDate := 20,
                         location := "Hall A", posterUrl := none, status := .ongoing,
                         createdById := "admin1" }
             { name := some "Relaunch", startDate := none, endDate := none,
               location := none, posterUrl := none, status := none }).id = e.id
        ∧ (applyUpdate { id := "e1", name := "Launch", startDate := 10, endDate := 20,
                         location := "Hall A", posterUrl := none, status := .ongoing,
                         createdById := "admin1" }
             { name := some "Relaunch", startDate := none, endDate := none,
               location := none, posterUrl := none, status := none }).createdById
            = e.createdById)
    ∧ (EventsService.update "e1"
        { name := some "Relaunch", startDate := none, endDate := none,
          location := none, posterUrl := none, status := none } "admin1" exDbEvent).2.events.map
        (fun e => e.id) = exDbEvent.events.map (fun e => e.id)
    ∧ (EventsService.update "e1"
        { name := some "Relaunch", startDate := none, endDate := none,
          location := none, posterUrl := none, status := none } "admin1" exDbEvent).2.events.map
        (fun e => e.createdById) = exDbEvent.events.map (fun e => e.createdById)
    ∧ (EventsService.update "e1"
        { name := some "Relaunch", startDate := none, endDate := none,
          location := none, posterUrl := none, status := none } "admin1" exDbEvent).2.admins
        = exDbEvent.admins
    ∧ (EventsService.update "e1"
        { name := some "Relaunch", startDate := none, endDate := none,
          location := none, posterUrl := none, status := none } "admin1" exDbEvent).2.refreshTokens
        = exDbEvent.refreshTokens :=
  update_preserves_id_and_owner exDbEvent "e1"
    { name := some "Relaunch", startDate := none, endDate := none,
      location := none, posterUrl := none, status := none } "admin1"
    (applyUpdate { id := "e1", name := "Launch", startDate := 10, endDate := 20,
                   location := "Hall A", posterUrl := none, status := .ongoing,
                   createdById := "admin1" }
       { name := some "Relaunch", startDate := none, endDate := none,
         location := none, posterUrl := none, status := none })
    (EventsService.update "e1"
      { name := some "Relaunch", startDate := none, endDate := none,
        location := none, posterUrl := none, status := none } "admin1" exDbEvent).2
    (by simp [Db.uniqueEventIds, exDbEvent]) rfl

deriving instance DecidableEq for Except

/-- Counterexample to claim C3's boundary case: the ledger row for `exTok3`
expires exactly at instant 50 (`expiresAt = now`), the token's signature
verifies under the refresh secret, yet `refreshTokens` at instant 50
succeeds and rotates instead of signalling `Unauthenticated`: the code
rejects only on `expiresAt < now`, not `expiresAt <= now`. -/
theorem refresh_boundary_accepted_counterexample :
    exDb3.findRefreshToken exTok3
      = some { id := 0, token := exTok3, adminId := "admin1", expiresAt := 50 }
    ∧ Jwt.verify exTok3 exCfg.jwtRefreshSecret 50 = some exPayload
    ∧ (AuthService.refreshTokens exCfg exTok3 50 exDb3).1
        = .ok (Jwt.sign exPayload "acc" 50 900, Jwt.sign exPayload "ref" 50 sevenDays)
    ∧ (AuthService.refreshTokens exCfg exTok3 50 exDb3).1
        ≠ .error (.unauthorized "Invalid refresh token") :=
  ⟨rfl, rfl, rfl, by decide⟩

/-- Claim C3 amended: `refreshTokens` signals
`Unauthorized('Invalid refresh token')` whenever the ledger has no row for
the presented token, or the matching row satisfies `expiresAt < now`
strictly; at the exact boundary `expiresAt = now` the token is accepted.
Both rejections hold for every token, verified or not, and leave the
database unchanged. -/
theorem refresh_fails_closed (cfg : Config) (db : Db) (T : Jwt) (now : Int) :
    (db.findRefreshToken T = none →
       AuthService.refreshTokens cfg T now db
         = (.error (.unauthorized "Invalid refresh token"), db))
    ∧ (∀ r, db.findRefreshToken T = some r → r.expiresAt < now →
       AuthService.refreshTokens cfg T now db
         = (.error (.unauthorized "Invalid refresh token"), db)) := by
  unfold AuthService.refreshTokens
  cases hv : T.verify cfg.jwtRefreshSecret now with
  | none => exact ⟨fun _ => rfl, fun _ _ _ => rfl⟩
  | some payload =>
    constructor
    · intro h
      rw [h]
    · intro r h hexp
      simp [h, hexp]

/-- Witness for amended C3: refreshing a token against a ledger that does
not contain it is rejected. -/
theorem refresh_fails_closed_witness :
    AuthService.refreshTokens exCfg exTok 0 exDbEvent
      = (.error (.unauthorized "Invalid refresh token"), exDbEvent) :=
  (refresh_fails_closed exCfg exDbEvent exTok 0).1 rfl

/-- Counterexample to claim C2: deleting a nonexistent event with a wrong
step-up password signals `Unauthorized('Invalid password')`, not
`NotFound` — the controller verifies the password before the service's
existence check ever runs. -/
theorem delete_nonexistent_wrong_password_counterexample :
    exDbEvent.findEvent "ghost" = none
    ∧ EventsController.delete exBcmp "ghost" "wrongpw" "admin1" exDbEvent
        = (.error (.unauthorized "Invalid password"), exDbEvent)
    ∧ (EventsController.delete exBcmp "ghost" "wrongpw" "admin1" exDbEvent).1
        ≠ .error (.notFound "Event not found") :=
  ⟨rfl, rfl, by decide⟩

/-- Claim C2 amended: for mutation the checks run existence-then-ownership
(`NotFound` before `Forbidden`); for deletion the step-up password check
runs first, before the existence and ownership checks: a password failure
aborts the request with that error (even for a nonexistent resource), and
only once the password verifies do the existence and ownership checks
apply, in that order. -/
theorem checks_order_password_first
    (bcmp : String → String → Bool) (db : Db)
    (eventId password userId : String) (dto : UpdateEventDto) :
    (db.findEvent eventId = none →
       EventsService.update eventId dto userId db
         = (.error (.notFound "Event not found"), db)
       ∧ EventsService.delete eventId userId db
         = (.error (.notFound "Event not found"), db))
    ∧ (∀ ev, db.findEvent eventId = some ev → ev.createdById ≠ userId →
       EventsService.update eventId dto userId db
         = (.error (.forbidden "You can only update your own events"), db)
       ∧ EventsService.delete eventId userId db
         = (.error (.forbidden "You can only delete your own events"), db))
    ∧ (∀ err, (AuthService.verifyPassword bcmp userId password db).1 = .error err →
       EventsController.delete bcmp eventId password userId db = (.error err, db))
    ∧ ((AuthService.verifyPassword bcmp userId password db).1 = .ok true →
       EventsController.delete bcmp eventId password userId db
         = EventsService.delete eventId userId db) := by
  refine ⟨?_, ?_, ?_, ?_⟩
  · intro h
    constructor
    · unfold EventsService.update
      rw [h]
    · unfold EventsService.delete
      rw [h]
  · intro ev h hown
    constructor
    · simp [EventsService.update, h, hown]
    · simp [EventsService.delete, h, hown]
  · intro err h
    have hpair : AuthService.verifyPassword bcmp userId password db = (.error err, db) :=
      Prod.ext h (verifyPassword_db_eq bcmp userId password db)
    unfold EventsController.delete
    rw [hpair]
  · intro h
    have hpair : AuthService.verifyPassword bcmp userId password db = (.ok true, db) :=
      Prod.ext h (verifyPassword_db_eq bcmp userId password db)
    unfold EventsController.delete
    rw [hpair]

/-- Witness for amended C2: the password failure propagates unchanged
through the delete endpoint. -/
theorem checks_order_password_first_witness :
    EventsController.delete exBcmp "ghost2" "badpw" "admin1" exDbEvent
      = (.error (.unauthorized "Invalid password"), exDbEvent) :=
  (checks_order_password_first exBcmp exDbEvent "ghost2" "badpw" "admin1"
      { name := none, startDate := none, endDate := none, location := none,
        posterUrl := none, status := none }).2.2.1
    (.unauthorized "Invalid password") rfl

/-- Counterexample to claim C1: when `refresh(T)` runs at the very instant T
was issued, `generateTokens` re-signs the same payload with the same secret
at the same `iat`, producing a token identical to T (HS256 signing is
deterministic); the rotation deletes T's row but inserts a row for the
identical token, so a second sequential `refresh(T)` succeeds again instead
of signalling `Unauthenticated`. -/
theorem refresh_replay_same_instant_counterexample :
    (AuthService.refreshTokens exCfg exTok 0 exDb).1
      = .ok (Jwt.sign exPayload "acc" 0 900, exTok)
    ∧ (AuthService.refreshTokens exCfg exTok 0
        (AuthService.refreshTokens exCfg exTok 0 exDb).2).1
      = .ok (Jwt.sign exPayload "acc" 0 900, exTok) :=
  ⟨rfl, rfl⟩

/-- Claim C1 amended: provided the rotation happens at an instant other than
T's issuance instant (so the replacement token it signs differs from T) and
the ledger satisfies its unique-token index, a successful `refresh(T)`
leaves no ledger row for T, and every subsequent sequential `refresh(T)`
signals `Unauthorized('Invalid refresh token')`. -/
theorem refresh_single_use
    (cfg : Config) (db : Db) (T : Jwt) (now1 now2 : Int)
    (tokens : Jwt × Jwt) (db2 : Db)
    (huniq : Db.uniqueTokens db) (hiat : now1 ≠ T.iat)
    (hok : AuthService.refreshTokens cfg T now1 db = (.ok tokens, db2)) :
    db2.findRefreshToken T = none
    ∧ (AuthService.refreshTokens cfg T now2 db2).1
        = .error (.unauthorized "Invalid refresh token") := by
  unfold AuthService.refreshTokens at hok
  split at hok
  · simp at hok
  next payload hv =>
    split at hok
    · simp at hok
    next stored hf =>
      split at hok
      · simp at hok
      next hexp =>
        unfold AuthService.generateTokens at hok
        simp only [Prod.mk.injEq, Except.ok.injEq] at hok
        obtain ⟨htok, hdb⟩ := hok
        have hstored_mem : stored ∈ db.refreshTokens := List.mem_of_find?_eq_some hf
        have hstored_tok : stored.token = T := by
          have := List.find?_some hf
          simpa using this
        have hnone : db2.findRefreshToken T = none := by
          subst hdb
          unfold Db.findRefreshToken
          rw [List.find?_eq_none]
          intro r hr
          simp only [decide_eq_true_eq]
          rcases List.mem_append.mp hr with hr1 | hr2
          · have hmem := List.mem_filter.mp hr1
            have hrid : r.id ≠ stored.id := by simpa using hmem.2
            have hrne : r ≠ stored := fun h => hrid (congrArg RefreshTokenRecord.id h)
            have hsymm : Symmetric
                (fun a b : RefreshTokenRecord => a.token ≠ b.token) :=
              fun a b hab => fun hba => hab hba.symm
            have hne_tok := huniq.forall hsymm hmem.1 hstored_mem hrne
            exact fun h => hne_tok (h.trans hstored_tok.symm)
          · have hre := List.mem_singleton.mp hr2
            intro hcontra
            apply hiat
            have : r.token.iat = T.iat := congrArg Jwt.iat hcontra
            rw [hre] at this
            exact this.symm ▸ rfl
        refine ⟨hnone, ?_⟩
        unfold AuthService.refreshTokens
        cases hv2 : T.verify cfg.jwtRefreshSecret now2 with
        | none => rfl
        | some p2 => rw [hnone]

/-- Witness for amended C1: `exTok1` was issued at instant 5; refreshing it
at instant 6 succeeds, and a second refresh at instant 7 is rejected. -/
theorem refresh_single_use_witness :
    (AuthService.refreshTokens exCfg exTok1 7
        (AuthService.refreshTokens exCfg exTok1 6 exDb1).2).1
      = .error (.unauthorized "Invalid refresh token") :=
  (refresh_single_use exCfg exDb1 exTok1 6 7
      (Jwt.sign exPayload "acc" 6 900, Jwt.sign exPayload "ref" 6 sevenDays)
      (AuthService.refreshTokens exCfg exTok1 6 exDb1).2
      (by simp [Db.uniqueTokens, exDb1]) (by decide) rfl).2
